import Mathlib

/-!
Shallow embedding of the account-management subsystem of the gig-platform
backend (src/accounts): the data model of models.py and the create operations
of serializers.py (RegisterSerializer, BecomeWorkerSerializer,
WorkerDocumentSerializer), account deletion with Django cascade semantics,
and the verification state machine of the specification.

The database is a record of lists; every row type keeps the field names of the
Django model it embeds.  Decimal columns are embedded as rationals, timestamps
as naturals, foreign keys as the account id of the owner (UserProfile,
WorkerProfile and AdminProfile are one-to-one with CustomUser, so the owning
account id identifies them).  Library-level collaborators that live outside
this repository (the EmailField format validator of Django, the password strength
policy of validate_password, file storage) are not modelled; no claim below
depends on them.

Error kinds: the serializers raise rest_framework ValidationError at their
guards (embedded as ApiError.validationError with the message of the source),
and the database unique constraints raise IntegrityError at insert time
(embedded as ApiError.integrityError).  The abstract taxonomy of the
specification maps InvalidStateError to the serializer guard errors and
ConflictError to the unique-constraint IntegrityError.
-/

namespace Gig

/-- CustomUser.Choice in src/accounts/models.py: User, Worker, Admin. -/
inductive Role
  | user
  | worker
  | admin
deriving DecidableEq

/-- WorkerProfile.VERIFICATION_STATUS and WorkerDocument.VERIFICATION_STATUS:
Pending, Verified, Rejected. -/
inductive VerificationStatus
  | pending
  | verified
  | rejected
deriving DecidableEq

/-- WorkerProfile.AVAILABILITY_STATUS: Active, Inactive, Busy. -/
inductive Availability
  | active
  | inactive
  | busy
deriving DecidableEq

/-- WorkerProfile.ServiceCategory. -/
inductive ServiceCategory
  | plumber
  | electrician
  | cleaner
  | carpenter
deriving DecidableEq

/-- WorkerDocument.DocumentType: Citizenship, Driver License, NIN Card. -/
inductive DocumentType
  | citizenship
  | driverLicense
  | ninCard
deriving DecidableEq

/-- SavedLocation.LocationType: Home, Work, Other. -/
inductive LocationType
  | home
  | work
  | other
deriving DecidableEq

/-- CustomUser row (models.py lines 9-67).  The id is a Nat standing for the
UUID primary key; date_joined and the password hash are not claim-relevant. -/
structure Account where
  id : Nat
  email : String
  username : String
  first_name : String
  last_name : String
  phone_number : String
  user_type : Role
  is_verified : Bool
deriving DecidableEq

/-- UserProfile row (models.py lines 70-118), keyed by the owning account id
(one-to-one).  Decimal columns are rationals. -/
structure UserProfile where
  user : Nat
  current_latitude : Option Rat
  current_longitude : Option Rat
  current_address : Option String
  preferred_radius_km : Rat
deriving DecidableEq

/-- SavedLocation row (models.py lines 121-170), keyed to the owning profile
by the account id of that profile (UserProfile is one-to-one with CustomUser). -/
structure SavedLocation where
  id : Nat
  user_profile : Nat
  label : String
  location_type : LocationType
  latitude : Rat
  longitude : Rat
  address : String
  is_default : Bool
deriving DecidableEq

/-- WorkerProfile row (models.py lines 173-272), keyed by the owning account
id (one-to-one).  verified_by is the account id of the verifying admin. -/
structure WorkerProfile where
  worker : Nat
  verification_status : VerificationStatus
  verified_at : Option Nat
  verified_by : Option Nat
  rejection_reason : Option String
  availability_status : Availability
  service_category : ServiceCategory
  skills : Option String
  bio : Option String
  hourly_rate : Option Rat
  service_latitude : Option Rat
  service_longitude : Option Rat
  service_radius_km : Rat
  average_rating : Rat
  total_reviews : Nat
  total_jobs_completed : Nat
deriving DecidableEq

/-- WorkerDocument row (models.py lines 275-338).  worker_profile is the
account id of the owning worker (WorkerProfile is one-to-one with
CustomUser). -/
structure WorkerDocument where
  id : Nat
  worker_profile : Nat
  document_type : DocumentType
  document_number : String
  document_file : String
  verification_status : VerificationStatus
  verified_at : Option Nat
  verified_by : Option Nat
  rejection_reason : Option String
deriving DecidableEq

/-- AdminProfile row (models.py lines 341-354), keyed by the owning account
id (one-to-one). -/
structure AdminProfileRec where
  admin : Nat
  can_verify_workers : Bool
  can_manage_users : Bool
  total_verifications : Nat
deriving DecidableEq

/-- The persistent store: one list per table, plus a fresh-id counter
standing for the primary-key generator. -/
structure DB where
  next_id : Nat
  accounts : List Account
  profiles : List UserProfile
  savedLocations : List SavedLocation
  workers : List WorkerProfile
  documents : List WorkerDocument
  adminProfiles : List AdminProfileRec
deriving DecidableEq

def emptyDB : DB :=
  { next_id := 0, accounts := [], profiles := [], savedLocations := [],
    workers := [], documents := [], adminProfiles := [] }

/-- Errors surfaced by the embedded operations: validationError for
rest_framework ValidationError raised in serializers.py (with the message of
the source), integrityError for a database IntegrityError on a unique
constraint, permissionError for the PermissionError of the verification
state machine of the specification. -/
inductive ApiError
  | validationError (msg : String)
  | integrityError
  | permissionError (msg : String)
deriving DecidableEq

/-- Drops one leading plus sign when present: the optional anchored
backslash-plus? of CustomUser.phone_regex. -/
def stripPlus (l : List Char) : List Char :=
  match l with
  | c :: rest => if c = '+' then rest else l
  | [] => []

/-- CustomUser.phone_regex (models.py lines 35-37): whether a string matches
the anchored regular expression backslash-plus? 1? d{9,15}: an optional
leading plus sign, then an optional literal one, then 9 to 15 digits.  The
optional literal one backtracks, so after stripping the optional plus the
residue matches exactly when it is all digits and either its length is
between 9 and 15, or it starts with the digit one followed by 9 to 15
further digits. -/
def matchesPhoneRegex (s : String) : Bool :=
  let cs := stripPlus s.data
  cs.all (fun c => c.isDigit) &&
    ((9 ≤ cs.length && cs.length ≤ 15) ||
      (match cs with
        | c :: rest => c = '1' && (9 ≤ rest.length && rest.length ≤ 15)
        | [] => false))

/-- The phone format exactly as the specification sentence words it: an
optional leading plus sign, an optional literal one, and 9 to 15 digits in
total.  (The optional literal one is itself a digit, so under this wording
the digit count after the optional plus is between 9 and 15 in total.) -/
def specPhoneFormat (s : String) : Bool :=
  let cs := stripPlus s.data
  cs.all (fun c => c.isDigit) && (9 ≤ cs.length && cs.length ≤ 15)

/-- Python str.lower() of RegisterSerializer.create (serializers.py line
53), embedded as per-character ASCII lowercasing (all emails in this
development are ASCII; Unicode-specific lowercasing is out of scope). -/
def strLower (s : String) : String := String.mk (s.data.map Char.toLower)

/-- Python email.split at the at-sign, first component (serializers.py line
56): the local part of the email, everything before the first at-sign. -/
def emailLocalPart (s : String) : String :=
  String.mk (s.data.takeWhile (fun c => ¬ c = '@'))

instance {ε α : Type} [DecidableEq ε] [DecidableEq α] :
    DecidableEq (Except ε α) := fun x y =>
  match x, y with
  | Except.error a, Except.error b =>
    if h : a = b then Decidable.isTrue (by rw [h])
    else Decidable.isFalse (by
      intro hh
      injection hh
      contradiction)
  | Except.error _, Except.ok _ => Decidable.isFalse (fun hh => Except.noConfusion hh)
  | Except.ok _, Except.error _ => Decidable.isFalse (fun hh => Except.noConfusion hh)
  | Except.ok a, Except.ok b =>
    if h : a = b then Decidable.isTrue (by rw [h])
    else Decidable.isFalse (by
      intro hh
      injection hh
      contradiction)

/-- Input accepted by RegisterSerializer (serializers.py lines 26-48):
email, first name, last name, phone number, password, password2. -/
structure RegisterInput where
  email : String
  first_name : String
  last_name : String
  phone_number : String
  password : String
  password2 : String
deriving DecidableEq

/-- The username-collision loop of RegisterSerializer.create (serializers.py
lines 56-62): try base, base1, base2, ... until one is not taken.  Fuel is
one more than the number of taken usernames, which always suffices. -/
def freshUsernameAux (taken : List String) (base : String) : Nat → Nat → String
  | 0, k => base ++ toString k
  | fuel + 1, k =>
    let candidate := if k = 0 then base else base ++ toString k
    if taken.contains candidate then freshUsernameAux taken base fuel (k + 1)
    else candidate

def freshUsername (taken : List String) (base : String) : String :=
  freshUsernameAux taken base (taken.length + 1) 0

/-- RegisterSerializer (serializers.py lines 26-75) together with the model
constraints it runs against.  Validation (is_valid): the phone regex and the
max_length=17 of CustomUser.phone_number, the exact-match unique validators
drawn from unique=True on phone_number and email, and the serializer-level
password/password2 equality check.  create(): lowercases the email, derives
the username from the email local part with the collision loop, inserts the
account (unique constraints on the lowercased email and on the username can
still fire here as IntegrityError, because the validator compared the raw
email), with user_type=User, and then creates the UserProfile row with its
model defaults: null coordinates and address, preferred_radius_km = 5. -/
def register (db : DB) (i : RegisterInput) : Except ApiError (DB × Account) :=
  if matchesPhoneRegex i.phone_number = false then
    Except.error (ApiError.validationError "phone format")
  else if 17 < i.phone_number.length then
    Except.error (ApiError.validationError "phone length")
  else if db.accounts.any (fun a => a.phone_number = i.phone_number) then
    Except.error (ApiError.validationError "phone exists")
  else if db.accounts.any (fun a => a.email = i.email) then
    Except.error (ApiError.validationError "email exists")
  else if i.password ≠ i.password2 then
    Except.error (ApiError.validationError "password fields do not match")
  else
    let email := strLower i.email
    let username :=
      freshUsername (db.accounts.map (fun a => a.username))
        (emailLocalPart email)
    if db.accounts.any (fun a => a.email = email) then
      Except.error ApiError.integrityError
    else if db.accounts.any (fun a => a.username = username) then
      Except.error ApiError.integrityError
    else
      let acct : Account :=
        { id := db.next_id, email := email, username := username,
          first_name := i.first_name, last_name := i.last_name,
          phone_number := i.phone_number, user_type := Role.user,
          is_verified := false }
      let profile : UserProfile :=
        { user := db.next_id, current_latitude := none,
          current_longitude := none, current_address := none,
          preferred_radius_km := 5 }
      Except.ok
        ({ db with
            next_id := db.next_id + 1,
            accounts := acct :: db.accounts,
            profiles := profile :: db.profiles }, acct)

/-- Input accepted by BecomeWorkerSerializer (serializers.py lines 78-89):
exactly the seven writable service-attribute fields of its Meta.fields; the
verification, availability, rating and counter columns are not among them, so
caller input can never reach those columns.  service_radius_km is optional in
the request; when absent the model default 10 applies. -/
structure WorkerAttrs where
  service_category : ServiceCategory
  skills : Option String
  bio : Option String
  hourly_rate : Option Rat
  service_latitude : Option Rat
  service_longitude : Option Rat
  service_radius_km : Option Rat
deriving DecidableEq

/-- The WorkerProfile row built by WorkerProfile.objects.create(worker=user,
**validated_data) (serializers.py line 100): the seven caller-supplied
columns, every other column at its model default (models.py lines 226-266):
verification_status=Pending, verified_at/verified_by/rejection_reason null,
availability_status=Inactive, service_radius_km 10, average_rating 0,
total_reviews 0, total_jobs_completed 0. -/
def newWorkerProfile (uid : Nat) (attrs : WorkerAttrs) : WorkerProfile :=
  { worker := uid,
    verification_status := VerificationStatus.pending,
    verified_at := none, verified_by := none, rejection_reason := none,
    availability_status := Availability.inactive,
    service_category := attrs.service_category,
    skills := attrs.skills, bio := attrs.bio,
    hourly_rate := attrs.hourly_rate,
    service_latitude := attrs.service_latitude,
    service_longitude := attrs.service_longitude,
    service_radius_km := attrs.service_radius_km.getD 10,
    average_rating := 0, total_reviews := 0, total_jobs_completed := 0 }

/-- Sets user_type to Worker on the account with the given id (the user.save
of serializers.py lines 102-103), leaving every other account unchanged. -/
def applyWorkerRole (uid : Nat) (a : Account) : Account :=
  if a.id = uid then { a with user_type := Role.worker } else a

/-- BecomeWorkerSerializer.create (serializers.py lines 91-105): uid is the
id of request.user (IsAuthenticated guarantees the account exists; the
none branch is unreachable in the source).  Raises ValidationError when the
user_type of the account is Admin or when a WorkerProfile already exists for it
(the hasattr check); otherwise creates the WorkerProfile row and then sets
user_type=Worker on the account.  The two writes are performed in sequence
with no enclosing transaction. -/
def becomeWorker (db : DB) (uid : Nat) (attrs : WorkerAttrs) :
    Except ApiError (DB × WorkerProfile) :=
  match db.accounts.find? (fun a => a.id = uid) with
  | none => Except.error (ApiError.validationError "unauthenticated")
  | some user =>
    if user.user_type = Role.admin then
      Except.error (ApiError.validationError "Admin cannot become worker.")
    else if db.workers.any (fun w => w.worker = uid) then
      Except.error (ApiError.validationError "Worker profile already exists.")
    else
      let wp := newWorkerProfile uid attrs
      Except.ok
        ({ db with
            workers := wp :: db.workers,
            accounts := db.accounts.map (applyWorkerRole uid) }, wp)

/-- BecomeWorkerSerializer.create stopped between its two writes: the state
after WorkerProfile.objects.create (serializers.py line 100) has committed
and before user.save (line 103) runs.  Because the source wraps the two
writes in no transaction, the default autocommit of Django makes this an actually
committed intermediate state when the process crashes between the lines. -/
def becomeWorkerInterrupted (db : DB) (uid : Nat) (attrs : WorkerAttrs) :
    Except ApiError DB :=
  match db.accounts.find? (fun a => a.id = uid) with
  | none => Except.error (ApiError.validationError "unauthenticated")
  | some user =>
    if user.user_type = Role.admin then
      Except.error (ApiError.validationError "Admin cannot become worker.")
    else if db.workers.any (fun w => w.worker = uid) then
      Except.error (ApiError.validationError "Worker profile already exists.")
    else
      Except.ok { db with workers := newWorkerProfile uid attrs :: db.workers }

/-- The atomicity invariant the specification demands of the role
transition: an account is Worker-tagged exactly when a WorkerProfile row
exists for it. -/
def workerInvariant (db : DB) : Prop :=
  ∀ a ∈ db.accounts,
    (a.user_type = Role.worker ↔ db.workers.any (fun w => w.worker = a.id) = true)

instance (db : DB) : Decidable (workerInvariant db) := by
  unfold workerInvariant
  infer_instance

/-- Input accepted by WorkerDocumentSerializer (serializers.py lines
108-118): the writable fields document_type, document_number, document_file
(id and uploaded_at are read_only, worker_profile and the verification
columns are not fields at all, so caller input can never set an owner or a
status). -/
structure DocumentInput where
  document_type : DocumentType
  document_number : String
  document_file : String
deriving DecidableEq

/-- WorkerDocumentSerializer.create (serializers.py lines 120-131) together
with the unique_together constraint of WorkerDocument.Meta (models.py lines
334-335).  uid is the id of request.user.  Raises ValidationError when the
user has no worker_profile or when user_type is not Worker; the insert then
hits the unique (worker_profile, document_type, document_number) constraint,
raising IntegrityError on a duplicate triple; otherwise the row is created
with the model default verification_status=Pending, attached to the calling
own worker_profile of the calling user. -/
def uploadDocument (db : DB) (uid : Nat) (i : DocumentInput) :
    Except ApiError (DB × WorkerDocument) :=
  match db.accounts.find? (fun a => a.id = uid) with
  | none => Except.error (ApiError.validationError "unauthenticated")
  | some user =>
    if db.workers.any (fun w => w.worker = uid) = false then
      Except.error (ApiError.validationError "Create worker profile first.")
    else if user.user_type ≠ Role.worker then
      Except.error (ApiError.validationError "Only workers can upload documents.")
    else if db.documents.any (fun d =>
        d.worker_profile = uid ∧ d.document_type = i.document_type ∧
          d.document_number = i.document_number) then
      Except.error ApiError.integrityError
    else
      let doc : WorkerDocument :=
        { id := db.next_id, worker_profile := uid,
          document_type := i.document_type,
          document_number := i.document_number,
          document_file := i.document_file,
          verification_status := VerificationStatus.pending,
          verified_at := none, verified_by := none, rejection_reason := none }
      Except.ok
        ({ db with next_id := db.next_id + 1, documents := doc :: db.documents },
          doc)

/-- Account deletion (DeleteUserView, views.py lines 95-106) with the
on_delete semantics declared in models.py: CASCADE on UserProfile.user,
SavedLocation.user_profile, WorkerProfile.worker, WorkerDocument.worker_profile
and AdminProfile.admin, SET_NULL on WorkerProfile.verified_by (lines 232-238)
and WorkerDocument.verified_by (lines 323-329). -/
def deleteAccount (db : DB) (uid : Nat) : DB :=
  { db with
    accounts := db.accounts.filter (fun a => a.id ≠ uid),
    profiles := db.profiles.filter (fun p => p.user ≠ uid),
    savedLocations := db.savedLocations.filter (fun s => s.user_profile ≠ uid),
    workers :=
      (db.workers.filter (fun w => w.worker ≠ uid)).map
        (fun w => if w.verified_by = some uid then { w with verified_by := none } else w),
    documents :=
      (db.documents.filter (fun d => d.worker_profile ≠ uid)).map
        (fun d => if d.verified_by = some uid then { d with verified_by := none } else d),
    adminProfiles := db.adminProfiles.filter (fun p => p.admin ≠ uid) }

/-- Modelled from the spec: the common verifiable shape of the verification
state machine (spec section 4.4) shared by WorkerProfile.verification_status
and WorkerDocument.verification_status.  The repository declares only these
model columns (models.py lines 226-239 and 317-330); no verify or reject
operation exists under src/, so the transitions below are modelled from the
words of the specification. -/
structure Verifiable where
  verification_status : VerificationStatus
  verified_at : Option Nat
  verified_by : Option Nat
  rejection_reason : Option String
deriving DecidableEq

/-- Modelled from the spec: transition verify(record, admin) of section 4.4,
absent from src/.  Requires the admin capability can_verify_workers
(PermissionError otherwise); sets status=Verified, verified_at=now,
verified_by=admin, clears rejection_reason, and increments the
total_verifications counter of the admin. -/
def verify (r : Verifiable) (adm : AdminProfileRec) (now : Nat) :
    Except ApiError (Verifiable × AdminProfileRec) :=
  if adm.can_verify_workers = false then
    Except.error (ApiError.permissionError "can_verify_workers required")
  else
    Except.ok
      ({ r with
          verification_status := VerificationStatus.verified,
          verified_at := some now, verified_by := some adm.admin,
          rejection_reason := none },
        { adm with total_verifications := adm.total_verifications + 1 })

/-- Modelled from the spec: transition reject(record, admin, reason) of
section 4.4, absent from src/.  Same permission check as verify; requires a
non-empty reason (ValidationError otherwise); sets status=Rejected,
verified_at=now, verified_by=admin, rejection_reason=reason. -/
def reject (r : Verifiable) (adm : AdminProfileRec) (reason : String) (now : Nat) :
    Except ApiError (Verifiable × AdminProfileRec) :=
  if adm.can_verify_workers = false then
    Except.error (ApiError.permissionError "can_verify_workers required")
  else if reason = "" then
    Except.error (ApiError.validationError "rejection reason required")
  else
    Except.ok
      ({ r with
          verification_status := VerificationStatus.rejected,
          verified_at := some now, verified_by := some adm.admin,
          rejection_reason := some reason },
        adm)

/-! Concrete fixtures used to instantiate the theorems below on closed
inputs. -/

/-- A registration request with a mixed-case email. -/
def regInp1 : RegisterInput :=
  { email := "Alice@Example.com", first_name := "A", last_name := "B",
    phone_number := "+12345678901", password := "pw12345", password2 := "pw12345" }

/-- A second request whose email equals the email of regInp1 up to letter case. -/
def regInp2 : RegisterInput :=
  { email := "ALICE@EXAMPLE.COM", first_name := "C", last_name := "D",
    phone_number := "+10987654321", password := "pw12345", password2 := "pw12345" }

/-- The account register creates from regInp1 on the empty store. -/
def regAcct1 : Account :=
  { id := 0, email := "alice@example.com", username := "alice",
    first_name := "A", last_name := "B", phone_number := "+12345678901",
    user_type := Role.user, is_verified := false }

/-- The store register leaves behind after regInp1 on the empty store. -/
def regDB1 : DB :=
  { next_id := 1, accounts := [regAcct1],
    profiles := [{ user := 0, current_latitude := none, current_longitude := none,
                   current_address := none, preferred_radius_km := 5 }],
    savedLocations := [], workers := [], documents := [], adminProfiles := [] }

/-- A registration request whose phone number is a one followed by fifteen
nines: sixteen digits in total, accepted by CustomUser.phone_regex. -/
def regInp16 : RegisterInput :=
  { email := "bob@example.com", first_name := "B", last_name := "C",
    phone_number := "1999999999999999", password := "pw12345", password2 := "pw12345" }

/-- A plain User account. -/
def acctU : Account :=
  { id := 0, email := "u@example.com", username := "u", first_name := "U",
    last_name := "V", phone_number := "+12345678901",
    user_type := Role.user, is_verified := false }

/-- A store holding only acctU. -/
def dbU : DB := { emptyDB with next_id := 1, accounts := [acctU] }

/-- Caller-supplied service attributes with every optional field absent. -/
def attrs0 : WorkerAttrs :=
  { service_category := ServiceCategory.plumber, skills := none, bio := none,
    hourly_rate := none, service_latitude := none, service_longitude := none,
    service_radius_km := none }

/-- The store after a successful becomeWorker of acctU on dbU. -/
def dbU2 : DB :=
  { dbU with
    workers := [newWorkerProfile 0 attrs0],
    accounts := dbU.accounts.map (applyWorkerRole 0) }

/-- A Worker-tagged account. -/
def acctW : Account :=
  { id := 0, email := "w@example.com", username := "w", first_name := "W",
    last_name := "X", phone_number := "+12345678902",
    user_type := Role.worker, is_verified := false }

/-- A citizenship document with number N1 owned by acctW. -/
def docW : WorkerDocument :=
  { id := 3, worker_profile := 0, document_type := DocumentType.citizenship,
    document_number := "N1", document_file := "f1",
    verification_status := VerificationStatus.pending,
    verified_at := none, verified_by := none, rejection_reason := none }

/-- A store where acctW already has a worker profile and the document docW. -/
def dbW : DB :=
  { next_id := 5, accounts := [acctW],
    profiles := [{ user := 0, current_latitude := none, current_longitude := none,
                   current_address := none, preferred_radius_km := 5 }],
    savedLocations := [], workers := [newWorkerProfile 0 attrs0],
    documents := [docW], adminProfiles := [] }

/-- The same document number as docW under a different document type. -/
def docInp2 : DocumentInput :=
  { document_type := DocumentType.driverLicense, document_number := "N1",
    document_file := "f2" }

/-- A second worker account, whose records are verified by account 0. -/
def acctW1 : Account :=
  { id := 1, email := "w1@example.com", username := "w1", first_name := "Y",
    last_name := "Z", phone_number := "+12345678903",
    user_type := Role.worker, is_verified := false }

/-- The worker profile of acctW1, verified by account 0. -/
def wpV : WorkerProfile :=
  { newWorkerProfile 1 attrs0 with
    verification_status := VerificationStatus.verified,
    verified_at := some 7, verified_by := some 0 }

/-- The document of acctW1, verified by account 0. -/
def docV : WorkerDocument :=
  { id := 4, worker_profile := 1, document_type := DocumentType.ninCard,
    document_number := "N9", document_file := "f9",
    verification_status := VerificationStatus.verified,
    verified_at := some 7, verified_by := some 0, rejection_reason := none }

/-- A store with two workers where account 0 owns a profile, a saved
location, a worker profile and a document, and is also the verifier on
the worker profile and the document of acctW1. -/
def dbDel : DB :=
  { next_id := 9, accounts := [acctW, acctW1],
    profiles := [{ user := 0, current_latitude := none, current_longitude := none,
                   current_address := none, preferred_radius_km := 5 },
                 { user := 1, current_latitude := none, current_longitude := none,
                   current_address := none, preferred_radius_km := 5 }],
    savedLocations := [{ id := 6, user_profile := 0, label := "Home",
                         location_type := LocationType.home, latitude := 1,
                         longitude := 2, address := "addr", is_default := true }],
    workers := [newWorkerProfile 0 attrs0, wpV],
    documents := [docW, docV], adminProfiles := [] }

/-- An admin profile without the can_verify_workers capability. -/
def admNo : AdminProfileRec :=
  { admin := 9, can_verify_workers := false, can_manage_users := false,
    total_verifications := 3 }

/-- An admin profile with the can_verify_workers capability. -/
def admYes : AdminProfileRec :=
  { admin := 9, can_verify_workers := true, can_manage_users := false,
    total_verifications := 3 }

/-- A pending verifiable record. -/
def rec0 : Verifiable :=
  { verification_status := VerificationStatus.pending, verified_at := none,
    verified_by := none, rejection_reason := none }

/-! Helper lemmas shared by the claim theorems. -/

theorem stripPlus_length (l : List Char) : l.length ≤ (stripPlus l).length + 1 := by
  cases l with
  | nil => simp [stripPlus]
  | cons c rest =>
    simp only [stripPlus]
    split
    · simp
    · simp

theorem matchesPhoneRegex_strip_length {s : String}
    (h : matchesPhoneRegex s = true) : (stripPlus s.data).length ≤ 16 := by
  unfold matchesPhoneRegex at h
  simp only [Bool.and_eq_true, Bool.or_eq_true, decide_eq_true_eq] at h
  obtain ⟨-, h2⟩ := h
  cases hcs : stripPlus s.data with
  | nil => simp
  | cons c rest =>
    rw [hcs] at h2
    rcases h2 with h2 | h2
    · simp only [List.length_cons] at h2 ⊢
      omega
    · simp only [Bool.and_eq_true, decide_eq_true_eq] at h2
      simp only [List.length_cons]
      omega

theorem matchesPhoneRegex_length {s : String}
    (h : matchesPhoneRegex s = true) : s.length ≤ 17 := by
  have h1 := matchesPhoneRegex_strip_length h
  have h2 := stripPlus_length s.data
  have h3 : s.length = s.data.length := rfl
  omega

theorem applyWorkerRole_id (uid : Nat) (a : Account) :
    (applyWorkerRole uid a).id = a.id := by
  unfold applyWorkerRole
  split <;> rfl

/-- Inversion of a successful register: the exact account and store it
produces. -/
theorem register_ok_inv {db : DB} {i : RegisterInput} {p : DB × Account}
    (hok : register db i = Except.ok p) :
    p.2 = { id := db.next_id, email := strLower i.email,
            username := freshUsername (db.accounts.map (fun a => a.username))
              (emailLocalPart (strLower i.email)),
            first_name := i.first_name, last_name := i.last_name,
            phone_number := i.phone_number, user_type := Role.user,
            is_verified := false } ∧
    p.1 = { db with
            next_id := db.next_id + 1,
            accounts := p.2 :: db.accounts,
            profiles := { user := db.next_id, current_latitude := none,
                          current_longitude := none, current_address := none,
                          preferred_radius_km := 5 } :: db.profiles } := by
  simp only [register] at hok
  split at hok
  · exact Except.noConfusion hok
  split at hok
  · exact Except.noConfusion hok
  split at hok
  · exact Except.noConfusion hok
  split at hok
  · exact Except.noConfusion hok
  split at hok
  · exact Except.noConfusion hok
  split at hok
  · exact Except.noConfusion hok
  split at hok
  · exact Except.noConfusion hok
  injection hok with h
  subst h
  exact ⟨rfl, rfl⟩

/-- Inversion of a successful becomeWorker: the exact worker profile and
store it produces. -/
theorem becomeWorker_ok_inv {db : DB} {uid : Nat} {attrs : WorkerAttrs}
    {p : DB × WorkerProfile}
    (hok : becomeWorker db uid attrs = Except.ok p) :
    p.2 = newWorkerProfile uid attrs ∧
    p.1 = { db with
            workers := newWorkerProfile uid attrs :: db.workers,
            accounts := db.accounts.map (applyWorkerRole uid) } := by
  unfold becomeWorker at hok
  split at hok
  · exact Except.noConfusion hok
  split at hok
  · exact Except.noConfusion hok
  split at hok
  · exact Except.noConfusion hok
  injection hok with h
  subst h
  exact ⟨rfl, rfl⟩

/-- Inversion of a successful uploadDocument: the exact document and store
it produces. -/
theorem uploadDocument_ok_inv {db : DB} {uid : Nat} {i : DocumentInput}
    {p : DB × WorkerDocument}
    (hok : uploadDocument db uid i = Except.ok p) :
    p.2 = { id := db.next_id, worker_profile := uid,
            document_type := i.document_type,
            document_number := i.document_number,
            document_file := i.document_file,
            verification_status := VerificationStatus.pending,
            verified_at := none, verified_by := none,
            rejection_reason := none } ∧
    p.1 = { db with
            next_id := db.next_id + 1,
            documents := p.2 :: db.documents } := by
  unfold uploadDocument at hok
  split at hok
  · exact Except.noConfusion hok
  split at hok
  · exact Except.noConfusion hok
  split at hok
  · exact Except.noConfusion hok
  split at hok
  · exact Except.noConfusion hok
  injection hok with h
  subst h
  exact ⟨rfl, rfl⟩

/-! Claim theorems. -/

/-- C1: every successful register creates the Account with role=User and
verified=false, and exactly one Profile for that Account, with preferred
search radius defaulting to 5 km and null coordinates.  The freshness
hypothesis says the id generator of the store has not yet been used by a profile
row, which holds of every store the operations of this file produce. -/
theorem register_creates_user_with_profile (db : DB) (i : RegisterInput)
    (db1 : DB) (a : Account)
    (hok : register db i = Except.ok (db1, a))
    (hfresh : ∀ p ∈ db.profiles, p.user ≠ db.next_id) :
    a.user_type = Role.user ∧ a.is_verified = false ∧
    ∃ p : UserProfile,
      db1.profiles = p :: db.profiles ∧ p.user = a.id ∧
      p.preferred_radius_km = 5 ∧ p.current_latitude = none ∧
      p.current_longitude = none ∧
      db1.profiles.countP (fun q => q.user = a.id) = 1 := by
  obtain ⟨ha, hdb⟩ := register_ok_inv hok
  simp only at ha hdb
  have hcount : db.profiles.countP (fun q => q.user = db.next_id) = 0 :=
    List.countP_eq_zero.mpr (by
      intro q hq
      simpa using hfresh q hq)
  subst ha
  refine ⟨rfl, rfl,
    ⟨{ user := db.next_id, current_latitude := none, current_longitude := none,
       current_address := none, preferred_radius_km := 5 }, ?_, rfl, rfl, rfl, rfl, ?_⟩⟩
  · rw [hdb]
  · rw [hdb]
    simp [List.countP_cons, hcount]

/-- C1 witness: register on the empty store with regInp1. -/
theorem register_creates_user_with_profile_witness :
    regAcct1.user_type = Role.user ∧ regAcct1.is_verified = false ∧
    ∃ p : UserProfile,
      regDB1.profiles = p :: emptyDB.profiles ∧ p.user = regAcct1.id ∧
      p.preferred_radius_km = 5 ∧ p.current_latitude = none ∧
      p.current_longitude = none ∧
      regDB1.profiles.countP (fun q => q.user = regAcct1.id) = 1 :=
  register_creates_user_with_profile emptyDB regInp1 regDB1 regAcct1
    (by decide) (by decide)

/-- C5: after a successful registration, a second registration whose email
equals that of the first up to letter case, or whose phone number equals
that of the first, always fails (with a ValidationError from the exact-match
unique validator or an IntegrityError from the unique constraint on the
lowercased stored email), and an Except.error outcome creates no Account
and no Profile row. -/
theorem register_second_duplicate_fails (db : DB) (i1 i2 : RegisterInput)
    (db1 : DB) (a1 : Account)
    (h1 : register db i1 = Except.ok (db1, a1))
    (hdup : strLower i2.email = strLower i1.email ∨
      i2.phone_number = i1.phone_number) :
    ∃ e, register db1 i2 = Except.error e := by
  obtain ⟨ha, hdb⟩ := register_ok_inv h1
  simp only at ha hdb
  have hmem : a1 ∈ db1.accounts := by
    rw [hdb]
    exact List.mem_cons_self _ _
  have haemail : a1.email = strLower i1.email := by rw [ha]
  have haphone : a1.phone_number = i1.phone_number := by rw [ha]
  simp only [register]
  split_ifs with h1' h2' h3' h4' h5' h6' h7'
  any_goals exact ⟨_, rfl⟩
  exfalso
  rcases hdup with he | hp
  · exact h6' (List.any_eq_true.mpr ⟨a1, hmem, by
      simp only [decide_eq_true_eq]
      rw [haemail, he]⟩)
  · exact h3' (List.any_eq_true.mpr ⟨a1, hmem, by
      simp only [decide_eq_true_eq]
      rw [haphone, hp]⟩)

/-- C5 witness: registering regInp1 on the empty store succeeds; regInp2,
whose email equals that of regInp1 up to letter case, then fails. -/
theorem register_second_duplicate_fails_witness :
    ∃ e, register regDB1 regInp2 = Except.error e :=
  register_second_duplicate_fails emptyDB regInp1 regInp2 regDB1 regAcct1
    (by decide) (Or.inl (by decide))

/-- C6 counterexample: the phone number 1999999999999999 has sixteen digits
in total, so it falls outside the claimed format (optional plus, optional
literal one, 9 to 15 digits in total), yet register accepts it: the
regular expression of CustomUser.phone_regex lets the optional literal one
precede a further 15 digits. -/
theorem register_phone_sixteen_digits_accepted :
    specPhoneFormat regInp16.phone_number = false ∧
    (register emptyDB regInp16).isOk = true := by decide

/-- C6 amended: on a store and request that are otherwise valid (here: the
empty store and fixed valid remaining fields), register accepts the phone
number exactly when it matches CustomUser.phone_regex — an optional leading
plus sign, an optional literal one, then 9 to 15 further digits — and a
phone number outside that format fails with a ValidationError. -/
theorem register_accepts_phone_iff_regex (phone : String) :
    ((∃ p, register emptyDB
        { email := "alice@example.com", first_name := "A", last_name := "B",
          phone_number := phone, password := "pw12345",
          password2 := "pw12345" } = Except.ok p) ↔
      matchesPhoneRegex phone = true) ∧
    (matchesPhoneRegex phone = false →
      register emptyDB
        { email := "alice@example.com", first_name := "A", last_name := "B",
          phone_number := phone, password := "pw12345",
          password2 := "pw12345" }
        = Except.error (ApiError.validationError "phone format")) := by
  constructor
  · constructor
    · rintro ⟨p, hp⟩
      by_contra hr
      have hr' : matchesPhoneRegex phone = false := by
        cases hfoo : matchesPhoneRegex phone
        · rfl
        · exact absurd hfoo hr
      simp only [register] at hp
      rw [if_pos hr'] at hp
      exact Except.noConfusion hp
    · intro hr
      have hlen : ¬ (17 < phone.length) := by
        have := matchesPhoneRegex_length hr
        omega
      simp only [register, emptyDB]
      rw [if_neg (by simp [hr]), if_neg hlen, if_neg (by simp), if_neg (by simp),
        if_neg (by simp), if_neg (by simp), if_neg (by simp)]
      exact ⟨_, rfl⟩
  · intro hr
    simp [register, hr]

/-- C6 amended witness: the phone number 123 falls outside the regular
expression and register rejects it with the phone-format ValidationError. -/
theorem register_accepts_phone_iff_regex_witness :
    register emptyDB
      { email := "alice@example.com", first_name := "A", last_name := "B",
        phone_number := "123", password := "pw12345", password2 := "pw12345" }
      = Except.error (ApiError.validationError "phone format") :=
  (register_accepts_phone_iff_regex "123").2 (by decide)

/-- C2: becomeWorker fails when the role of the account is Admin (with the
message of serializers.py line 95) or when a WorkerProfile already exists
for the account (line 98); on a User account with no WorkerProfile it
succeeds, and a second call on the resulting store fails. -/
theorem becomeWorker_guards (db : DB) (uid : Nat) (attrs attrs2 : WorkerAttrs)
    (a : Account)
    (hfind : db.accounts.find? (fun x => x.id = uid) = some a) :
    (a.user_type = Role.admin →
      becomeWorker db uid attrs
        = Except.error (ApiError.validationError "Admin cannot become worker.")) ∧
    (db.workers.any (fun w => w.worker = uid) = true →
      ∃ e, becomeWorker db uid attrs = Except.error e) ∧
    (a.user_type = Role.user → db.workers.any (fun w => w.worker = uid) = false →
      ∃ db1 wp, becomeWorker db uid attrs = Except.ok (db1, wp) ∧
        becomeWorker db1 uid attrs2
          = Except.error (ApiError.validationError "Worker profile already exists.")) := by
  have haid : a.id = uid := by
    have := List.find?_some hfind
    simpa using this
  refine ⟨?_, ?_, ?_⟩
  · intro hadm
    simp [becomeWorker, hfind, hadm]
  · intro hany
    by_cases hadm : a.user_type = Role.admin
    · exact ⟨ApiError.validationError "Admin cannot become worker.",
        by simp [becomeWorker, hfind, hadm]⟩
    · exact ⟨ApiError.validationError "Worker profile already exists.",
        by simp [becomeWorker, hfind, hadm, hany]⟩
  · intro huser hnone
    have hadm : ¬ (a.user_type = Role.admin) := by
      rw [huser]
      intro hh
      exact Role.noConfusion hh
    have hok : becomeWorker db uid attrs
        = Except.ok
          ({ db with
              workers := newWorkerProfile uid attrs :: db.workers,
              accounts := db.accounts.map (applyWorkerRole uid) },
            newWorkerProfile uid attrs) := by
      simp only [becomeWorker, hfind]
      rw [if_neg hadm, if_neg (by simp [hnone])]
    refine ⟨_, _, hok, ?_⟩
    have hfind1 : (db.accounts.map (applyWorkerRole uid)).find?
        (fun x => x.id = uid) = some (applyWorkerRole uid a) := by
      rw [List.find?_map]
      have hpf : ((fun x : Account => decide (x.id = uid)) ∘ applyWorkerRole uid)
          = fun x : Account => decide (x.id = uid) := by
        funext x
        simp [Function.comp, applyWorkerRole_id]
      rw [hpf, hfind]
      rfl
    have hrole : (applyWorkerRole uid a).user_type = Role.worker := by
      simp [applyWorkerRole, haid]
    simp only [becomeWorker, hfind1]
    rw [if_neg (by
      rw [hrole]
      intro hh
      exact Role.noConfusion hh)]
    rw [if_pos (by
      simp only [List.any_cons]
      have : (newWorkerProfile uid attrs).worker = uid := rfl
      simp [this])]

/-- C2 witness: on the store holding only the User account acctU,
becomeWorker succeeds once and the second call fails. -/
theorem becomeWorker_guards_witness :
    ∃ db1 wp, becomeWorker dbU 0 attrs0 = Except.ok (db1, wp) ∧
      becomeWorker db1 0 attrs0
        = Except.error (ApiError.validationError "Worker profile already exists.") :=
  (becomeWorker_guards dbU 0 attrs0 attrs0 acctU (by decide)).2.2
    (by decide) (by decide)

/-- C3: the claim is false of the code.  BecomeWorkerSerializer.create
performs its two writes with no enclosing transaction, so the committed
intermediate state after WorkerProfile.objects.create (serializers.py line
100) and before user.save (line 103) is reachable on a crash; there the
invariant "role=Worker exactly when a WorkerRecord exists" is violated: the
store dbU satisfies the invariant, the interrupted run commits, and the
resulting store holds a WorkerProfile whose owning account is still
User-tagged. -/
theorem becomeWorker_not_atomic :
    workerInvariant dbU ∧
    becomeWorkerInterrupted dbU 0 attrs0
      = Except.ok { dbU with workers := [newWorkerProfile 0 attrs0] } ∧
    ¬ workerInvariant { dbU with workers := [newWorkerProfile 0 attrs0] } := by
  decide

/-- C4: uploadDocument fails when the calling account has no WorkerProfile
or its role is not Worker; it fails with the IntegrityError of the
unique_together (worker_profile, document_type, document_number) constraint
when the triple already exists; and when the triple is new (in particular
when the same number exists only under a different type) it succeeds,
creating a document with status Pending. -/
theorem uploadDocument_guards (db : DB) (uid : Nat) (i : DocumentInput)
    (a : Account)
    (hfind : db.accounts.find? (fun x => x.id = uid) = some a) :
    ((db.workers.any (fun w => w.worker = uid) = false ∨
        a.user_type ≠ Role.worker) →
      ∃ e, uploadDocument db uid i = Except.error e) ∧
    (db.workers.any (fun w => w.worker = uid) = true →
      a.user_type = Role.worker →
      db.documents.any (fun d => d.worker_profile = uid ∧
        d.document_type = i.document_type ∧
        d.document_number = i.document_number) = true →
      uploadDocument db uid i = Except.error ApiError.integrityError) ∧
    (db.workers.any (fun w => w.worker = uid) = true →
      a.user_type = Role.worker →
      db.documents.any (fun d => d.worker_profile = uid ∧
        d.document_type = i.document_type ∧
        d.document_number = i.document_number) = false →
      ∃ db1 d, uploadDocument db uid i = Except.ok (db1, d) ∧
        d.verification_status = VerificationStatus.pending ∧
        d.worker_profile = uid) := by
  refine ⟨?_, ?_, ?_⟩
  · intro hbad
    rcases hbad with hnow | hrole
    · exact ⟨ApiError.validationError "Create worker profile first.",
        by simp [uploadDocument, hfind, hnow]⟩
    · by_cases hnow : db.workers.any (fun w => w.worker = uid) = false
      · exact ⟨ApiError.validationError "Create worker profile first.",
          by simp [uploadDocument, hfind, hnow]⟩
      · have hw : db.workers.any (fun w => w.worker = uid) = true := by
          revert hnow
          cases db.workers.any (fun w => w.worker = uid) <;> simp
        exact ⟨ApiError.validationError "Only workers can upload documents.",
          by simp [uploadDocument, hfind, hw, hrole]⟩
  · intro hw hrole hdup
    simp only [uploadDocument, hfind]
    rw [if_neg (by simp [hw]), if_neg (by simp [hrole]), if_pos hdup]
  · intro hw hrole hnodup
    simp only [uploadDocument, hfind]
    rw [if_neg (by simp [hw]), if_neg (by simp [hrole]),
      if_neg (by
        rw [hnodup]
        decide)]
    exact ⟨_, _, rfl, rfl, rfl⟩

/-- C4 witness: acctW already holds a citizenship document with number N1;
uploading the same number N1 as a driver license succeeds with status
Pending. -/
theorem uploadDocument_guards_witness :
    ∃ db1 d, uploadDocument dbW 0 docInp2 = Except.ok (db1, d) ∧
      d.verification_status = VerificationStatus.pending ∧
      d.worker_profile = 0 :=
  (uploadDocument_guards dbW 0 docInp2 acctW (by decide)).2.2
    (by decide) (by decide) (by decide)

/-- C10: caller input cannot set protected fields at creation.  The input
types WorkerAttrs and DocumentInput hold exactly the writable serializer
fields (BecomeWorkerSerializer.Meta.fields and the non-read-only
WorkerDocumentSerializer.Meta.fields), so quantifying over them quantifies
over everything a caller can supply: every WorkerProfile created by
becomeWorker starts Pending, Inactive, unverified, with rating 0 and both
counters 0, and every WorkerDocument created by uploadDocument starts
Pending and is attached to the own worker profile of the calling account. -/
theorem created_records_protected_defaults (db : DB) (uid : Nat)
    (attrs : WorkerAttrs) (i : DocumentInput) :
    (∀ db1 wp, becomeWorker db uid attrs = Except.ok (db1, wp) →
      wp.verification_status = VerificationStatus.pending ∧
      wp.availability_status = Availability.inactive ∧
      wp.verified_at = none ∧ wp.verified_by = none ∧
      wp.rejection_reason = none ∧
      wp.average_rating = 0 ∧ wp.total_reviews = 0 ∧
      wp.total_jobs_completed = 0 ∧ wp.worker = uid) ∧
    (∀ db1 d, uploadDocument db uid i = Except.ok (db1, d) →
      d.verification_status = VerificationStatus.pending ∧
      d.verified_at = none ∧ d.verified_by = none ∧
      d.worker_profile = uid) := by
  constructor
  · intro db1 wp hok
    obtain ⟨hwp, -⟩ := becomeWorker_ok_inv hok
    simp only at hwp
    subst hwp
    exact ⟨rfl, rfl, rfl, rfl, rfl, rfl, rfl, rfl, rfl⟩
  · intro db1 d hok
    obtain ⟨hd, -⟩ := uploadDocument_ok_inv hok
    simp only at hd
    subst hd
    exact ⟨rfl, rfl, rfl, rfl⟩

/-- C10 witness: the successful becomeWorker of acctU on dbU and the
successful uploadDocument of docInp2 on dbW instantiate both halves. -/
theorem created_records_protected_defaults_witness :
    ((newWorkerProfile 0 attrs0).verification_status = VerificationStatus.pending ∧
      (newWorkerProfile 0 attrs0).availability_status = Availability.inactive ∧
      (newWorkerProfile 0 attrs0).verified_at = none ∧
      (newWorkerProfile 0 attrs0).verified_by = none ∧
      (newWorkerProfile 0 attrs0).rejection_reason = none ∧
      (newWorkerProfile 0 attrs0).average_rating = 0 ∧
      (newWorkerProfile 0 attrs0).total_reviews = 0 ∧
      (newWorkerProfile 0 attrs0).total_jobs_completed = 0 ∧
      (newWorkerProfile 0 attrs0).worker = 0) :=
  (created_records_protected_defaults dbU 0 attrs0 docInp2).1
    dbU2 (newWorkerProfile 0 attrs0) (by decide)

/-- C7 (spec-modelled): verify without the can_verify_workers capability
fails with PermissionError and returns no updated record or counter; with
the capability it sets status=Verified, verified_at=now, verified_by=admin,
clears rejection_reason, and increments the total_verifications of that
admin. -/
theorem verify_requires_capability (r : Verifiable) (adm : AdminProfileRec)
    (now : Nat) :
    (adm.can_verify_workers = false →
      verify r adm now
        = Except.error (ApiError.permissionError "can_verify_workers required")) ∧
    (adm.can_verify_workers = true →
      verify r adm now
        = Except.ok
          ({ r with
              verification_status := VerificationStatus.verified,
              verified_at := some now, verified_by := some adm.admin,
              rejection_reason := none },
            { adm with total_verifications := adm.total_verifications + 1 })) := by
  constructor
  · intro h
    simp [verify, h]
  · intro h
    simp [verify, h]

/-- C7 witness: verify fails for admNo (capability off, counter untouched)
and succeeds for admYes with counter 3 + 1. -/
theorem verify_requires_capability_witness :
    verify rec0 admNo 5
      = Except.error (ApiError.permissionError "can_verify_workers required") ∧
    verify rec0 admYes 5
      = Except.ok
        ({ rec0 with
            verification_status := VerificationStatus.verified,
            verified_at := some 5, verified_by := some admYes.admin,
            rejection_reason := none },
          { admYes with total_verifications := admYes.total_verifications + 1 }) :=
  ⟨(verify_requires_capability rec0 admNo 5).1 (by decide),
    (verify_requires_capability rec0 admYes 5).2 (by decide)⟩

/-- C8 (spec-modelled): for an authorized admin, reject with an empty
reason always fails with ValidationError (leaving the record untouched);
with a non-empty reason it sets status=Rejected, verified_at=now,
verified_by=admin and rejection_reason=reason. -/
theorem reject_requires_reason (r : Verifiable) (adm : AdminProfileRec)
    (reason : String) (now : Nat)
    (hcap : adm.can_verify_workers = true) :
    (reason = "" →
      reject r adm reason now
        = Except.error (ApiError.validationError "rejection reason required")) ∧
    (reason ≠ "" →
      reject r adm reason now
        = Except.ok
          ({ r with
              verification_status := VerificationStatus.rejected,
              verified_at := some now, verified_by := some adm.admin,
              rejection_reason := some reason },
            adm)) := by
  constructor
  · intro h
    simp [reject, hcap, h]
  · intro h
    simp [reject, hcap, h]

/-- C8 witness: reject with the empty reason fails for admYes; with reason
"bad scan" it succeeds and records the reason. -/
theorem reject_requires_reason_witness :
    reject rec0 admYes "" 5
      = Except.error (ApiError.validationError "rejection reason required") ∧
    reject rec0 admYes "bad scan" 5
      = Except.ok
        ({ rec0 with
            verification_status := VerificationStatus.rejected,
            verified_at := some 5, verified_by := some admYes.admin,
            rejection_reason := some "bad scan" },
          admYes) :=
  ⟨(reject_requires_reason rec0 admYes "" 5 (by decide)).1 rfl,
    (reject_requires_reason rec0 admYes "bad scan" 5 (by decide)).2 (by decide)⟩

/-- C9: deleting an Account cascades to its Profile, SavedLocations,
WorkerProfile and WorkerDocuments (none survive), while every record of
another owner survives with only its verified_by reference cleared when it
pointed at the deleted account — all other fields unchanged, as expressed
by membership of the record updated only at verified_by. -/
theorem deleteAccount_cascades (db : DB) (uid : Nat) :
    (∀ a ∈ (deleteAccount db uid).accounts, a.id ≠ uid) ∧
    (∀ p ∈ (deleteAccount db uid).profiles, p.user ≠ uid) ∧
    (∀ s ∈ (deleteAccount db uid).savedLocations, s.user_profile ≠ uid) ∧
    (∀ w ∈ (deleteAccount db uid).workers,
      w.worker ≠ uid ∧ w.verified_by ≠ some uid) ∧
    (∀ d ∈ (deleteAccount db uid).documents,
      d.worker_profile ≠ uid ∧ d.verified_by ≠ some uid) ∧
    (∀ w ∈ db.workers, w.worker ≠ uid →
      (if w.verified_by = some uid then { w with verified_by := none } else w)
        ∈ (deleteAccount db uid).workers) ∧
    (∀ d ∈ db.documents, d.worker_profile ≠ uid →
      (if d.verified_by = some uid then { d with verified_by := none } else d)
        ∈ (deleteAccount db uid).documents) := by
  refine ⟨?_, ?_, ?_, ?_, ?_, ?_, ?_⟩
  · intro a ha
    simp only [deleteAccount] at ha
    simpa using (List.mem_filter.mp ha).2
  · intro p hp
    simp only [deleteAccount] at hp
    simpa using (List.mem_filter.mp hp).2
  · intro s hs
    simp only [deleteAccount] at hs
    simpa using (List.mem_filter.mp hs).2
  · intro w hw
    simp only [deleteAccount] at hw
    obtain ⟨y, hy, rfl⟩ := List.mem_map.mp hw
    have hy2 : y.worker ≠ uid := by simpa using (List.mem_filter.mp hy).2
    by_cases hv : y.verified_by = some uid
    · constructor
      · simpa [hv] using hy2
      · simp [hv]
    · constructor
      · simpa [hv] using hy2
      · simp [hv]
  · intro d hd
    simp only [deleteAccount] at hd
    obtain ⟨y, hy, rfl⟩ := List.mem_map.mp hd
    have hy2 : y.worker_profile ≠ uid := by simpa using (List.mem_filter.mp hy).2
    by_cases hv : y.verified_by = some uid
    · constructor
      · simpa [hv] using hy2
      · simp [hv]
    · constructor
      · simpa [hv] using hy2
      · simp [hv]
  · intro w hw hne
    simp only [deleteAccount]
    exact List.mem_map_of_mem _ (List.mem_filter.mpr ⟨hw, by simpa using hne⟩)
  · intro d hd hne
    simp only [deleteAccount]
    exact List.mem_map_of_mem _ (List.mem_filter.mpr ⟨hd, by simpa using hne⟩)

/-- C9 witness: deleting account 0 from dbDel keeps wpV, the worker profile
of acctW1 whose verified_by pointed at account 0, with that reference
cleared. -/
theorem deleteAccount_cascades_witness :
    (if wpV.verified_by = some 0 then { wpV with verified_by := none } else wpV)
      ∈ (deleteAccount dbDel 0).workers :=
  (deleteAccount_cascades dbDel 0).2.2.2.2.2.1 wpV (by decide) (by decide)

end Gig
